import Mathlib

/-!
# Verification of the Reddit RSS monitor core logic

A shallow embedding of the repository's core logic:

* `src/utils/dateUtils.js` — the freshness filter `isWithinTimeWindow`;
* `src/services/postTracker.js` — the in-memory seen-item tracker
  (`isNewPost`, `markAsSeen`, `cleanup`, `getTrackedCount`);
* `src/services/rssService.js` — `fetchFeed` / `fetchMultipleFeeds` /
  `getAllPosts` (network outcomes are supplied by an explicit oracle);
* `src/services/openaiService.js` — `generateReply` / `analyzeAllPosts`
  (the completion-API outcome is supplied by an explicit oracle);
* `src/services/emailService.js` — `sendNotification` and its skip filter
  (transport success is supplied by an explicit boolean);
* `src/config/env.js` — configuration loading and validation;
* `src/index.js` — the per-cycle orchestrator `monitorFeeds`.

JavaScript timestamps are embedded as `Int` milliseconds; a `Date` whose
`getTime()` is `NaN` is embedded as `none : Option Int` (every comparison
against `NaN` is false, matching the `Option`-guarded comparisons below).
JavaScript `Map` objects are embedded as association lists whose update
operation overwrites every binding of the key, exactly as `Map.set` leaves
a single binding per key.
-/

namespace RedditRssMonitor

/-! ## Data model -/

/-- A publish-date field of a feed item as the JavaScript code can observe
it: absent (falsy, rejected by `isNewPost`'s guard), present but
unparseable (`new Date(...)` yields `NaN`), or a parsed timestamp in
milliseconds. -/
inductive DateValue
  | missing
  | malformed
  | valid (t : Int)
deriving DecidableEq, Repr

/-- The millisecond timestamp of a `DateValue`: `new Date(d).getTime()`,
with `none` standing for `NaN`. -/
def DateValue.time : DateValue → Option Int
  | .missing => none
  | .malformed => none
  | .valid t => some t

/-- A feed item as built by `rssService.fetchFeed` and enriched along the
pipeline (`fullContent`, then the AI fields added by `analyzeAllPosts`).
`id := none` stands for an absent/empty (falsy) identifier. -/
structure Post where
  id : Option String := none
  title : String := ""
  link : String := ""
  pubDate : DateValue := DateValue.missing
  subreddit : String := ""
  content : Option String := none
  contentSnippet : Option String := none
  fullContent : Option String := none
  shouldReply : Option Bool := none
  aiReply : Option String := none
  skipReason : Option String := none
deriving DecidableEq, Repr

/-! ## dateUtils.js -/

/-- `isWithinTimeWindow(postDate, minutes)` from `src/utils/dateUtils.js`:
`age = now - postTime; return age >= 0 && age <= minutes * 60 * 1000`.
`postTime = none` models `NaN`, for which both comparisons are false. -/
def isWithinTimeWindow (now : Int) (postTime : Option Int) (minutes : Int) : Bool :=
  match postTime with
  | none => false
  | some t => decide (now - t ≥ 0) && decide (now - t ≤ minutes * 60 * 1000)

/-! ## postTracker.js

The `Map<postId, timestamp>` is an association list; `mapHas`, `mapGet`,
`mapSet` embed `Map.has`, `Map.get`, `Map.set`. -/

/-- `Map.has(k)`. -/
def mapHas (m : List (String × Int)) (k : String) : Bool :=
  m.any (fun p => p.1 == k)

/-- `Map.get(k)` (first binding of `k`). -/
def mapGet (m : List (String × Int)) (k : String) : Option Int :=
  (m.find? (fun p => p.1 == k)).map (fun p => p.2)

/-- `Map.set(k, v)`: overwrite the binding of `k` if present, otherwise
append a new binding. -/
def mapSet (m : List (String × Int)) (k : String) (v : Int) : List (String × Int) :=
  if mapHas m k then
    m.map (fun p => if p.1 == k then (k, v) else p)
  else
    m ++ [(k, v)]

/-- `this.MAX_AGE_MS = 60 * 60 * 1000` — the one-hour retention horizon. -/
def MAX_AGE_MS : Int := 60 * 60 * 1000

/-- The `PostTracker` state: its `seenPosts` map. -/
structure PostTracker where
  seenPosts : List (String × Int)
deriving DecidableEq, Repr

/-- `PostTracker.isNewPost(post, timeWindowMinutes)`: fail closed on a
falsy `id` or `pubDate`, otherwise recent-and-not-seen. The method never
writes the map, which the state-passing embedding records by returning the
tracker unchanged. -/
def isNewPost (tr : PostTracker) (now : Int) (post : Post)
    (timeWindowMinutes : Int) : Bool × PostTracker :=
  match post.id with
  | none => (false, tr)
  | some pid =>
    match post.pubDate with
    | DateValue.missing => (false, tr)
    | d =>
      let isRecent := isWithinTimeWindow now d.time timeWindowMinutes
      let notSeen := !(mapHas tr.seenPosts pid)
      (isRecent && notSeen, tr)

/-- `PostTracker.markAsSeen(postId)`: `this.seenPosts.set(postId, Date.now())`. -/
def markAsSeen (tr : PostTracker) (postId : String) (now : Int) : PostTracker :=
  ⟨mapSet tr.seenPosts postId now⟩

/-- The body of `PostTracker.cleanup()` on the raw map: delete every
binding with `now - timestamp > MAX_AGE_MS`. -/
def cleanupList (m : List (String × Int)) (now : Int) : List (String × Int) :=
  m.filter (fun p => !(decide (now - p.2 > MAX_AGE_MS)))

/-- `PostTracker.cleanup()`: evict stale records, returning the new state
and the `removedCount` it logs. -/
def cleanup (tr : PostTracker) (now : Int) : PostTracker × Nat :=
  (⟨cleanupList tr.seenPosts now⟩,
   (tr.seenPosts.filter (fun p => decide (now - p.2 > MAX_AGE_MS))).length)

/-- `PostTracker.getTrackedCount()`: `this.seenPosts.size`. -/
def getTrackedCount (tr : PostTracker) : Nat :=
  tr.seenPosts.length

/-! ## rssService.js

The network is an oracle: for each subreddit, either the parsed feed's
items (already mapped to `Post`s, as lines 33–39 of the source do) or a
thrown error's message. -/

/-- The outcome of `parser.parseURL` for one subreddit. -/
inductive FetchOutcome
  | ok (posts : List Post)
  | err (msg : String)
deriving Repr

/-- The object returned by `RssService.fetchFeed`. -/
structure FeedResult where
  success : Bool
  subreddit : String
  error : Option String
  posts : List Post
deriving Repr

/-- `RssService.fetchFeed(subreddit)`: on success `{success: true,
subreddit, posts}`, on a thrown error `{success: false, subreddit, error,
posts: []}` — the failure is caught, never rethrown. -/
def fetchFeed (subreddit : String) (outcome : FetchOutcome) : FeedResult :=
  match outcome with
  | .ok posts => ⟨true, subreddit, none, posts⟩
  | .err msg => ⟨false, subreddit, some msg, []⟩

/-- `RssService.fetchMultipleFeeds(subreddits)`: one `fetchFeed` per
subreddit. -/
def fetchMultipleFeeds (subreddits : List String)
    (oracle : String → FetchOutcome) : List FeedResult :=
  subreddits.map (fun s => fetchFeed s (oracle s))

/-- `RssService.getAllPosts(feedResults)`:
`feedResults.filter(r => r.success).flatMap(r => r.posts)`. -/
def getAllPosts (feedResults : List FeedResult) : List Post :=
  (feedResults.filter (fun r => r.success)).flatMap (fun r => r.posts)

/-- JavaScript `a || b` on nullable strings: `a` unless it is falsy
(`null`/`undefined`/`""`). Used for the `fullContent` fallback chain in
`monitorFeeds`. -/
def jsOrStr (a b : Option String) : Option String :=
  match a with
  | some s => if s == "" then b else some s
  | none => b

/-! ## openaiService.js

The completion API's behaviour for one post is an oracle value. -/

/-- What one `chat.completions.create` round for a post can come back as:
a thrown API error, an empty `responseText`, a `JSON.parse` failure, or a
parsed JSON object with its optional `should_reply` / `reply` / `reason`
fields. -/
inductive AIOutcome
  | apiError (msg : String)
  | emptyResponse
  | parseError (raw : String)
  | parsed (should_reply : Option Bool) (reply : Option String) (reason : Option String)
deriving DecidableEq, Repr

/-- The three failure shapes of `AIOutcome` (everything except a parsed
response). -/
def aiFailed : AIOutcome → Bool
  | .apiError _ => true
  | .emptyResponse => true
  | .parseError _ => true
  | .parsed _ _ _ => false

/-- The object `OpenAIService.generateReply` resolves with (when the
service is enabled). -/
structure AIResult where
  shouldReply : Bool
  reply : Option String
  reason : String
deriving DecidableEq, Repr

/-- `OpenAIService.generateReply(post)`: every failure path is caught and
returned as `{shouldReply: false, reply: null, reason: ...}`; a parsed
response yields `shouldReply = (response.should_reply === true)`,
`reply = response.reply || null`, `reason = response.reason || 'Not
relevant'`. -/
def generateReply (outcome : AIOutcome) : AIResult :=
  match outcome with
  | .apiError _ => ⟨false, none, "OpenAI API error"⟩
  | .emptyResponse => ⟨false, none, "No response from AI"⟩
  | .parseError _ => ⟨false, none, "AI response error"⟩
  | .parsed sr rep rsn => ⟨sr == some true, rep, rsn.getD "Not relevant"⟩

/-- The per-post step inside `OpenAIService.analyzeAllPosts`: spread the
post and add `shouldReply`, `aiReply`, and `skipReason` (the latter `null`
when the AI decided to reply). -/
def analyzePost (ai : Post → AIOutcome) (post : Post) : Post :=
  let result := generateReply (ai post)
  { post with
      shouldReply := some result.shouldReply
      aiReply := result.reply
      skipReason := if result.shouldReply then none else some result.reason }

/-- `OpenAIService.analyzeAllPosts(posts)`: returns the posts unchanged
when disabled or empty, otherwise analyzes every post and keeps all of
them ("but don't filter them out"). -/
def analyzeAllPosts (enabled : Bool) (posts : List Post)
    (ai : Post → AIOutcome) : List Post :=
  if !enabled || posts.length == 0 then posts
  else posts.map (analyzePost ai)

/-! ## emailService.js (the `src/services/emailService.js` version used by
`src/index.js`, with the AI skip filter) -/

/-- Line 53 of `emailService.js`:
`posts.filter(post => post.shouldReply !== false)` — the list the email is
actually built from. -/
def postsToEmail (posts : List Post) : List Post :=
  posts.filter (fun post => post.shouldReply != some false)

/-- The per-post block of `EmailService.formatEmailBody`. -/
def formatPostText (index : Nat) (post : Post) : String :=
  let base := toString (index + 1) ++ ".\nr/" ++ post.subreddit ++ "\n"
      ++ post.title ++ "\n" ++ post.link
  if post.shouldReply == some false then
    base ++ "\n\nAI Decision: SKIP\nReason: " ++ (post.skipReason.getD "Not relevant")
  else
    match post.aiReply with
    | some r => if r == "" then base else base ++ "\n\nAI Suggested Reply:\n" ++ r
    | none => base

/-- `EmailService.sendNotification(posts)`: `false` for a null or empty
argument, `false` when the skip filter leaves nothing, otherwise the
transport outcome (`true` if `mailerSend.email.send` resolved, `false` if
it threw — the error is caught). -/
def sendNotification (posts : Option (List Post)) (transportOk : Bool) : Bool :=
  match posts with
  | none => false
  | some ps =>
    if ps.length == 0 then false
    else
      let toEmail := postsToEmail ps
      if toEmail.length == 0 then false
      else transportOk

/-! ## config/env.js -/

/-- The process environment. `vars name = ""` stands for an unset or
empty variable — the two are indistinguishable to this code (`!value` in
`requireEnv`, `||` in `getEnv`). -/
structure Env where
  vars : String → String

/-- `requireEnv(varName)`: throw on a falsy value. -/
def requireEnv (env : Env) (varName : String) : Except String String :=
  if env.vars varName == "" then
    Except.error ("Missing required environment variable: " ++ varName)
  else
    Except.ok (env.vars varName)

/-- `getEnv(varName, defaultValue)`. -/
def getEnv (env : Env) (varName defaultValue : String) : String :=
  if env.vars varName == "" then defaultValue else env.vars varName

/-- A character of the class `[^\s@]` of the email regex (whitespace per
`Char.isWhitespace`, the ASCII core of JavaScript `\s`). -/
def isEmailChar (c : Char) : Bool :=
  !(c == '@' || c.isWhitespace)

/-- Split a character list on a separator (the groups between the
occurrences of `sep`, in order; `n` separators yield `n + 1` groups). -/
def splitOnChar (sep : Char) : List Char → List (List Char)
  | [] => [[]]
  | c :: rest =>
    match splitOnChar sep rest with
    | [] => [[c]]
    | g :: gs => if c == sep then [] :: g :: gs else (c :: g) :: gs

/-- `isValidEmail(email)`: the regex `^[^\s@]+@[^\s@]+\.[^\s@]+$` —
exactly one `@`, a nonempty local part over `[^\s@]`, and a domain over
`[^\s@]` containing a `.` that is neither its first nor its last
character. -/
def isValidEmail (s : String) : Bool :=
  match splitOnChar '@' s.toList with
  | [localPart, domain] =>
    decide (localPart.length > 0) && localPart.all isEmailChar
      && domain.all isEmailChar
      && ((domain.drop 1).dropLast.contains '.')
  | _ => false

/-- The numeric value of a nonempty digit string. -/
def digitsToNat (ds : List Char) : Nat :=
  ds.foldl (fun a c => a * 10 + (c.toNat - '0'.toNat)) 0

/-- JavaScript `parseInt(s, 10)`: skip leading whitespace, an optional
sign, then the longest digit prefix; `none` stands for `NaN` (no
digits). -/
def parseIntJS (s : String) : Option Int :=
  let cs := s.toList.dropWhile Char.isWhitespace
  match cs with
  | '-' :: rest =>
    let ds := rest.takeWhile Char.isDigit
    if ds.isEmpty then none else some (-(digitsToNat ds : Int))
  | '+' :: rest =>
    let ds := rest.takeWhile Char.isDigit
    if ds.isEmpty then none else some (digitsToNat ds : Int)
  | _ =>
    let ds := cs.takeWhile Char.isDigit
    if ds.isEmpty then none else some (digitsToNat ds : Int)

/-- JavaScript `x < n` where `x` may be `NaN` (`none`): any comparison
with `NaN` is false. -/
def ltNaN (x : Option Int) (n : Int) : Bool :=
  match x with
  | none => false
  | some v => decide (v < n)

/-- `SUBREDDITS` parsing:
`.split(',').map(s => s.trim()).filter(s => s.length > 0)`. -/
def parseSubreddits (s : String) : List String :=
  ((s.splitOn ",").map String.trim).filter (fun x => x.length > 0)

/-- The `config.email` object. -/
structure EmailConfig where
  fromEmail : String
  fromName : String
  toEmail : String
deriving Repr

/-- The `config.monitoring` object; the two counts are `parseInt` results
(`none` = `NaN`). -/
structure MonitoringConfig where
  subreddits : List String
  checkIntervalMinutes : Option Int
  postAgeMinutes : Option Int
deriving Repr

/-- The validated `config` object of `src/config/env.js` (the OpenAI
prompt text is loaded from a file outside the config logic and does not
take part in validation, so it is not modelled). -/
structure Config where
  mailersendApiToken : String
  email : EmailConfig
  monitoring : MonitoringConfig
  logLevel : String
  openaiApiKey : String
  openaiModel : String
deriving Repr

/-- The module body of `src/config/env.js`: build the config object (each
`requireEnv` may throw) and then run the validation block; any throw
escapes the module and aborts startup before `index.js` schedules
anything. -/
def loadConfig (env : Env) : Except String Config :=
  match requireEnv env "MAILERSEND_API_TOKEN" with
  | .error e => .error e
  | .ok apiToken =>
  match requireEnv env "FROM_EMAIL" with
  | .error e => .error e
  | .ok fromEmail =>
  match requireEnv env "TO_EMAIL" with
  | .error e => .error e
  | .ok toEmail =>
  match requireEnv env "SUBREDDITS" with
  | .error e => .error e
  | .ok subsRaw =>
  if !(isValidEmail fromEmail) then
    .error ("Invalid FROM_EMAIL: " ++ fromEmail)
  else if !(isValidEmail toEmail) then
    .error ("Invalid TO_EMAIL: " ++ toEmail)
  else if (parseSubreddits subsRaw).length == 0 then
    .error "SUBREDDITS must contain at least one subreddit"
  else if ltNaN (parseIntJS (getEnv env "CHECK_INTERVAL_MINUTES" "5")) 1 then
    .error "CHECK_INTERVAL_MINUTES must be at least 1"
  else if ltNaN (parseIntJS (getEnv env "POST_AGE_MINUTES" "5")) 1 then
    .error "POST_AGE_MINUTES must be at least 1"
  else
    .ok ⟨apiToken,
         ⟨fromEmail, getEnv env "FROM_NAME" "Reddit RSS Monitor", toEmail⟩,
         ⟨parseSubreddits subsRaw,
          parseIntJS (getEnv env "CHECK_INTERVAL_MINUTES" "5"),
          parseIntJS (getEnv env "POST_AGE_MINUTES" "5")⟩,
         getEnv env "LOG_LEVEL" "info",
         getEnv env "OPENAI_API_KEY" "",
         getEnv env "OPENAI_MODEL" "gpt-4o-mini"⟩

/-! ## index.js — the cycle orchestrator `monitorFeeds` -/

/-- Everything one run of `monitorFeeds` consumes besides the tracker:
the configuration values it reads and the outcome of every external call
it makes during the cycle. -/
structure CycleEnv where
  subreddits : List String
  postAgeMinutes : Int
  feedOracle : String → FetchOutcome
  contentOracle : String → Option String
  aiEnabled : Bool
  aiOracle : Post → AIOutcome
  transportOk : Bool
  now : Int

/-- The enrichment step of `monitorFeeds` (lines 52–60): spread the post
with `fullContent: fullContent || post.contentSnippet || post.content`. -/
def enrichPost (contentOracle : String → Option String) (post : Post) : Post :=
  { post with
      fullContent := jsOrStr (jsOrStr (contentOracle post.link) post.contentSnippet)
        post.content }

/-- Line 73 of `index.js`:
`newPosts.forEach(post => postTracker.markAsSeen(post.id))`. Every post
reaching this line passed `isNewPost`, so its `id` is present; `getD ""`
only totalizes the projection. -/
def markAllSeen (tr : PostTracker) (posts : List Post) (now : Int) : PostTracker :=
  posts.foldl (fun t p => markAsSeen t (p.id.getD "") now) tr

/-- What one `monitorFeeds` run produces: the tracker afterwards, the
cycle's `newPosts` batch, and whether `sendNotification` reported
success (`false` when no send was even attempted). -/
structure CycleResult where
  tracker : PostTracker
  newPosts : List Post
  emailSent : Bool

/-- Lines 35–44 of `index.js`: the cycle's `newPosts` — all posts of the
successful feeds, filtered by `isNewPost`. -/
def cycleNewPosts (tr : PostTracker) (env : CycleEnv) : List Post :=
  (getAllPosts (fetchMultipleFeeds env.subreddits env.feedOracle)).filter
    (fun p => (isNewPost tr env.now p env.postAgeMinutes).1)

/-- Lines 52–66 of `index.js`: the cycle's `analyzedPosts` — the new
posts enriched with full content and, when the AI service is enabled,
annotated by `analyzeAllPosts`. -/
def cycleAnalyzed (tr : PostTracker) (env : CycleEnv) : List Post :=
  let withContent := (cycleNewPosts tr env).map (enrichPost env.contentOracle)
  if env.aiEnabled then analyzeAllPosts env.aiEnabled withContent env.aiOracle
  else withContent

/-- `monitorFeeds()` from `src/index.js`: fetch all feeds, keep the new
posts, and if there are any, enrich, optionally analyze, send one batched
notification, and mark the batch seen only on send success; always run
`cleanup()` at the end. -/
def monitorFeeds (tr : PostTracker) (env : CycleEnv) : CycleResult :=
  let newPosts := cycleNewPosts tr env
  if 0 < newPosts.length then
    let emailSent := sendNotification (some (cycleAnalyzed tr env)) env.transportOk
    let tr1 := if emailSent then markAllSeen tr newPosts env.now else tr
    ⟨(cleanup tr1 env.now).1, newPosts, emailSent⟩
  else
    ⟨(cleanup tr env.now).1, newPosts, false⟩

/-! ## Concrete instances used in scenarios and witnesses -/

/-- A demonstration feed item. -/
def demoPost : Post :=
  { id := some "p1", title := "demo", link := "https://example.com/p1",
    pubDate := DateValue.valid 0, subreddit := "music" }

/-- A second demonstration feed item. -/
def demoPost2 : Post :=
  { id := some "p2", title := "demo2", link := "https://example.com/p2",
    pubDate := DateValue.valid 0, subreddit := "music" }

/-- A two-source network oracle where only `music` succeeds. -/
def demoFeedOracle : String → FetchOutcome :=
  fun s => if s == "music" then FetchOutcome.ok [demoPost]
           else FetchOutcome.err "fetch failed"

/-- An environment whose recipient address fails email-shape
validation. -/
def badEnv : Env :=
  ⟨fun v =>
    if v == "MAILERSEND_API_TOKEN" then "token"
    else if v == "FROM_EMAIL" then "monitor@example.com"
    else if v == "TO_EMAIL" then "not-an-email"
    else if v == "SUBREDDITS" then "music"
    else ""⟩

/-- A cycle during which the feed yields one fresh post and the email
transport fails. -/
def demoCycleEnvFail : CycleEnv :=
  { subreddits := ["music"]
    postAgeMinutes := 5
    feedOracle := fun _ => FetchOutcome.ok [demoPost]
    contentOracle := fun _ => none
    aiEnabled := false
    aiOracle := fun _ => AIOutcome.emptyResponse
    transportOk := false
    now := 60000 }

/-- A cycle during which the AI suppresses every post while the transport
itself would succeed. -/
def demoCycleEnvSkip : CycleEnv :=
  { subreddits := ["music"]
    postAgeMinutes := 5
    feedOracle := fun _ => FetchOutcome.ok [demoPost]
    contentOracle := fun _ => none
    aiEnabled := true
    aiOracle := fun _ => AIOutcome.parsed (some false) none (some "Not relevant")
    transportOk := true
    now := 60000 }

/-- A cycle with two fresh posts of which the AI suppresses one; the
transport succeeds. -/
def demoCycleEnvMixed : CycleEnv :=
  { subreddits := ["music"]
    postAgeMinutes := 5
    feedOracle := fun _ => FetchOutcome.ok [demoPost, demoPost2]
    contentOracle := fun _ => none
    aiEnabled := true
    aiOracle := fun p =>
      if p.id == some "p2" then AIOutcome.parsed (some false) none (some "Not relevant")
      else AIOutcome.parsed (some true) (some "hello") none
    transportOk := true
    now := 60000 }

/-- An analyzed post the AI decided to suppress. -/
def skipPost : Post :=
  { id := some "s1", title := "skipped", link := "https://example.com/s1",
    pubDate := DateValue.valid 0, subreddit := "music",
    shouldReply := some false, skipReason := some "Not relevant" }

/-- An analyzed post the AI decided to reply to. -/
def keepPost : Post :=
  { id := some "k1", title := "kept", link := "https://example.com/k1",
    pubDate := DateValue.valid 0, subreddit := "music",
    shouldReply := some true, aiReply := some "hello" }

/-- A post whose annotation call will fail. -/
def failAIPost : Post :=
  { id := some "f1", title := "fails", link := "https://example.com/f1",
    pubDate := DateValue.valid 0, subreddit := "music" }

/-- A post whose annotation call will succeed. -/
def okAIPost : Post :=
  { id := some "g1", title := "ok", link := "https://example.com/g1",
    pubDate := DateValue.valid 0, subreddit := "music" }

/-- An annotation oracle that throws for `failAIPost` and replies for
everything else. -/
def demoAIOracle : Post → AIOutcome :=
  fun p =>
    if p.id == some "f1" then AIOutcome.apiError "rate limited"
    else AIOutcome.parsed (some true) (some "hello") none

/-! ## Lemmas about the seen-posts map -/

theorem mapHas_of_mem {m : List (String × Int)} {k : String} {v : Int}
    (h : (k, v) ∈ m) : mapHas m k = true := by
  simp only [mapHas, List.any_eq_true]
  exact ⟨(k, v), h, by simp⟩

theorem mapHas_eq_false_iff {m : List (String × Int)} {k : String} :
    mapHas m k = false ↔ ∀ v : Int, (k, v) ∉ m := by
  constructor
  · intro h v hv
    rw [mapHas_of_mem hv] at h
    exact absurd h (by simp)
  · intro h
    cases hh : mapHas m k with
    | false => rfl
    | true =>
      simp only [mapHas, List.any_eq_true] at hh
      obtain ⟨⟨k', v⟩, hm, he⟩ := hh
      simp only [beq_iff_eq] at he
      exact absurd hm (by rw [he] at hm ⊢; exact h v)

theorem mem_mapSet_self (m : List (String × Int)) (k : String) (v : Int) :
    (k, v) ∈ mapSet m k v := by
  unfold mapSet
  split
  · rename_i h
    simp only [mapHas, List.any_eq_true] at h
    obtain ⟨p, hp, he⟩ := h
    rw [List.mem_map]
    exact ⟨p, hp, by simp [he]⟩
  · simp

theorem mem_mapSet_same_val {m : List (String × Int)} {k : String} {v : Int}
    (h : (k, v) ∈ m) (k' : String) : (k, v) ∈ mapSet m k' v := by
  unfold mapSet
  split
  · rw [List.mem_map]
    refine ⟨(k, v), h, ?_⟩
    by_cases hk : k = k'
    · subst hk; simp
    · simp [hk]
  · exact List.mem_append_left _ h

theorem mem_cleanupList {m : List (String × Int)} {now : Int} {k : String} {ts : Int} :
    (k, ts) ∈ cleanupList m now ↔ (k, ts) ∈ m ∧ now - ts ≤ MAX_AGE_MS := by
  simp [cleanupList, List.mem_filter, not_lt]

theorem mapHas_cleanupList_false {m : List (String × Int)} {k : String} (now : Int)
    (h : mapHas m k = false) : mapHas (cleanupList m now) k = false := by
  rw [mapHas_eq_false_iff] at h ⊢
  intro v hv
  exact h v (List.mem_of_mem_filter hv)

theorem mapHas_cleanupList_true {m : List (String × Int)} {now : Int} {k : String}
    {ts : Int} (hm : (k, ts) ∈ m) (hfresh : now - ts ≤ MAX_AGE_MS) :
    mapHas (cleanupList m now) k = true :=
  mapHas_of_mem (mem_cleanupList.mpr ⟨hm, hfresh⟩)

/-! ## Lemmas about `isNewPost` -/

theorem isNewPost_snd (tr : PostTracker) (now : Int) (post : Post) (w : Int) :
    (isNewPost tr now post w).2 = tr := by
  cases hid : post.id with
  | none => simp [isNewPost, hid]
  | some pid => cases hd : post.pubDate <;> simp [isNewPost, hid, hd]

theorem isNewPost_fst_iff (tr : PostTracker) (now : Int) (post : Post) (w : Int) :
    (isNewPost tr now post w).1 = true ↔
      ∃ pid, post.id = some pid ∧ post.pubDate ≠ DateValue.missing ∧
        isWithinTimeWindow now post.pubDate.time w = true ∧
        mapHas tr.seenPosts pid = false := by
  cases hid : post.id with
  | none => simp [isNewPost, hid]
  | some pid =>
    cases hd : post.pubDate with
    | missing => simp [isNewPost, hid, hd]
    | malformed => simp [isNewPost, hid, hd, isWithinTimeWindow, DateValue.time]
    | valid t =>
      simp only [isNewPost, hid, hd, Bool.and_eq_true, Bool.not_eq_true',
        Option.some.injEq]
      constructor
      · rintro ⟨h1, h2⟩
        exact ⟨pid, rfl, by simp, h1, h2⟩
      · rintro ⟨pid', hpid, _, h1, h2⟩
        exact ⟨h1, hpid ▸ h2⟩

theorem isNewPost_true_after_cleanup {tr : PostTracker} {now2 : Int} {post : Post}
    {w : Int} (tc : Int) (h : (isNewPost tr now2 post w).1 = true) :
    (isNewPost ⟨cleanupList tr.seenPosts tc⟩ now2 post w).1 = true := by
  rw [isNewPost_fst_iff] at h ⊢
  obtain ⟨pid, h1, h2, h3, h4⟩ := h
  exact ⟨pid, h1, h2, h3, mapHas_cleanupList_false tc h4⟩

/-! ## Lemmas about the orchestrator -/

theorem monitorFeeds_tracker_of_not_sent (tr : PostTracker) (env : CycleEnv)
    (h : (monitorFeeds tr env).emailSent = false) :
    (monitorFeeds tr env).tracker = (cleanup tr env.now).1 := by
  unfold monitorFeeds at h ⊢
  by_cases hc : 0 < (cycleNewPosts tr env).length
  · simp only [hc, if_true] at h ⊢
    simp only [h, if_false] at *
    simp [h]
  · simp [hc]

/-! ## Claim theorems -/

/-- C4: the freshness filter returns true iff
`0 ≤ now - publishTime ≤ w * 60000` milliseconds; a future-dated
timestamp (negative age) yields false, and a malformed/unparseable
timestamp (`NaN`, embedded as `none`) yields false. -/
theorem freshness_filter_window_iff (now w : Int) :
    (∀ pt, isWithinTimeWindow now pt w = true ↔
      ∃ t, pt = some t ∧ 0 ≤ now - t ∧ now - t ≤ w * 60000) ∧
    (∀ t, now - t < 0 → isWithinTimeWindow now (some t) w = false) ∧
    isWithinTimeWindow now none w = false := by
  have h60 : w * 60 * 1000 = w * 60000 := by ring
  refine ⟨?_, ?_, rfl⟩
  · intro pt
    cases pt with
    | none => simp [isWithinTimeWindow]
    | some t => simp [isWithinTimeWindow, h60, ge_iff_le, sub_nonneg, and_comm]
  · intro t h
    simp only [isWithinTimeWindow, Bool.and_eq_false_iff, decide_eq_false_iff_not]
    omega

/-- Witness for C4 at concrete inputs: a five-minute-old item is fresh in
a five-minute window, a future-dated item is not, and an unparseable
timestamp is not. -/
theorem freshness_filter_window_iff_witness :
    isWithinTimeWindow 300000 (some 0) 5 = true ∧
    isWithinTimeWindow 0 (some 600000) 5 = false ∧
    isWithinTimeWindow 0 none 5 = false :=
  ⟨((freshness_filter_window_iff 300000 5).1 (some 0)).mpr
      ⟨0, rfl, by decide, by decide⟩,
   (freshness_filter_window_iff 0 5).2.1 600000 (by decide),
   (freshness_filter_window_iff 0 5).2.2⟩

/-- C5: `isNewPost` fails closed (false) on a post lacking an identifier
or a publish time; otherwise it is true iff the post is within the
freshness window and its identifier is absent from the seen map; and in
all cases it leaves the seen map unchanged. -/
theorem isNewPost_contract (tr : PostTracker) (now : Int) (post : Post) (w : Int) :
    ((post.id = none ∨ post.pubDate = DateValue.missing) →
      (isNewPost tr now post w).1 = false) ∧
    (∀ pid, post.id = some pid → post.pubDate ≠ DateValue.missing →
      ((isNewPost tr now post w).1 = true ↔
        isWithinTimeWindow now post.pubDate.time w = true ∧
        mapHas tr.seenPosts pid = false)) ∧
    (isNewPost tr now post w).2 = tr := by
  refine ⟨?_, ?_, isNewPost_snd tr now post w⟩
  · rintro (h | h)
    · simp [isNewPost, h]
    · cases hid : post.id <;> simp [isNewPost, hid, h]
  · intro pid hpid hd
    rw [isNewPost_fst_iff]
    constructor
    · rintro ⟨pid', h1, _, h3, h4⟩
      rw [hpid, Option.some.injEq] at h1
      subst h1
      exact ⟨h3, h4⟩
    · rintro ⟨h3, h4⟩
      exact ⟨pid, hpid, hd, h3, h4⟩

/-- Witness for C5: a fresh unseen post is new, a post without an
identifier is not, and the tracker state is returned unchanged. -/
theorem isNewPost_contract_witness :
    (isNewPost ⟨[]⟩ 120000 { id := some "a1", pubDate := DateValue.valid 0 } 5).1 = true ∧
    (isNewPost ⟨[]⟩ 120000 { id := none, pubDate := DateValue.valid 0 } 5).1 = false ∧
    (isNewPost ⟨[]⟩ 120000 { id := some "a1", pubDate := DateValue.valid 0 } 5).2 = ⟨[]⟩ :=
  ⟨((isNewPost_contract ⟨[]⟩ 120000 { id := some "a1", pubDate := DateValue.valid 0 } 5).2.1
      "a1" rfl (by decide)).mpr ⟨by decide, by decide⟩,
   (isNewPost_contract ⟨[]⟩ 120000 { id := none, pubDate := DateValue.valid 0 } 5).1
      (Or.inl rfl),
   (isNewPost_contract ⟨[]⟩ 120000 { id := some "a1", pubDate := DateValue.valid 0 } 5).2.2⟩

/-- C6: once `markAsSeen id` has run, `isNewPost` is false for every post
carrying identifier `id` regardless of how fresh its publish time is, and
it stays false across any `cleanup` that does not evict the record (one
run while the record's age is within the retention horizon). -/
theorem markAsSeen_blocks_new (tr : PostTracker) (pid : String) (t tc now w : Int)
    (post : Post) (hid : post.id = some pid) (hkept : tc - t ≤ MAX_AGE_MS) :
    (isNewPost (markAsSeen tr pid t) now post w).1 = false ∧
    (isNewPost ((cleanup (markAsSeen tr pid t) tc).1) now post w).1 = false := by
  have hmem : (pid, t) ∈ (markAsSeen tr pid t).seenPosts := mem_mapSet_self _ _ _
  constructor
  · cases hb : (isNewPost (markAsSeen tr pid t) now post w).1 with
    | false => rfl
    | true =>
      rw [isNewPost_fst_iff] at hb
      obtain ⟨pid', h1, _, _, h4⟩ := hb
      rw [hid, Option.some.injEq] at h1
      subst h1
      rw [mapHas_of_mem hmem] at h4
      exact absurd h4 (by simp)
  · cases hb : (isNewPost ((cleanup (markAsSeen tr pid t) tc).1) now post w).1 with
    | false => rfl
    | true =>
      rw [isNewPost_fst_iff] at hb
      obtain ⟨pid', h1, _, _, h4⟩ := hb
      rw [hid, Option.some.injEq] at h1
      subst h1
      rw [show ((cleanup (markAsSeen tr pid t) tc).1).seenPosts
            = cleanupList (markAsSeen tr pid t).seenPosts tc from rfl] at h4
      rw [mapHas_cleanupList_true hmem hkept] at h4
      exact absurd h4 (by simp)

/-- Witness for C6: a post marked seen at `t = 1000` is reported not-new
even though its publish time is current, before and after a cleanup at
`tc = 2000`. -/
theorem markAsSeen_blocks_new_witness :
    (isNewPost (markAsSeen ⟨[]⟩ "a1" 1000) 1500
        { id := some "a1", pubDate := DateValue.valid 1500 } 5).1 = false ∧
    (isNewPost ((cleanup (markAsSeen ⟨[]⟩ "a1" 1000) 2000).1) 1500
        { id := some "a1", pubDate := DateValue.valid 1500 } 5).1 = false :=
  markAsSeen_blocks_new ⟨[]⟩ "a1" 1000 2000 1500 5
    { id := some "a1", pubDate := DateValue.valid 1500 } rfl (by decide)

/-- C7: after a `cleanup` at time `now`, a record survives iff it was
present with its timestamp unchanged and its age is at most the one-hour
retention horizon; in particular a record made at `t0` is removed by a
cleanup at `t0 + 61` minutes and kept by a cleanup at `t0 + 59`
minutes. -/
theorem cleanup_retention (tr : PostTracker) (now : Int) :
    (∀ pid ts, (pid, ts) ∈ (cleanup tr now).1.seenPosts ↔
      (pid, ts) ∈ tr.seenPosts ∧ now - ts ≤ MAX_AGE_MS) ∧
    (∀ t0 : Int,
      mapHas (cleanup (⟨[("a1", t0)]⟩ : PostTracker) (t0 + 61 * 60000)).1.seenPosts
        "a1" = false ∧
      mapHas (cleanup (⟨[("a1", t0)]⟩ : PostTracker) (t0 + 59 * 60000)).1.seenPosts
        "a1" = true) := by
  constructor
  · intro pid ts
    exact mem_cleanupList
  · intro t0
    constructor
    · show mapHas (cleanupList [("a1", t0)] (t0 + 61 * 60000)) "a1" = false
      rw [mapHas_eq_false_iff]
      intro v hv
      rw [mem_cleanupList] at hv
      obtain ⟨hm, hle⟩ := hv
      simp only [List.mem_singleton, Prod.mk.injEq] at hm
      rw [MAX_AGE_MS] at hle
      omega
    · exact mapHas_cleanupList_true (List.mem_singleton.mpr rfl)
        (by rw [MAX_AGE_MS]; omega)

theorem getAllPosts_cons (r : FeedResult) (rs : List FeedResult) :
    getAllPosts (r :: rs) = (if r.success then r.posts else []) ++ getAllPosts rs := by
  cases hs : r.success <;> simp [getAllPosts, List.filter_cons, hs]

/-- C8: one source's fetch failure does not abort the others: `fetchFeed`
maps a thrown fetch error to a `{success: false, posts: []}` result, and
`getAllPosts` over the per-source results is exactly the concatenation of
the successful sources' post lists. -/
theorem source_failure_isolated (subs : List String) (oracle : String → FetchOutcome) :
    (∀ s msg, oracle s = FetchOutcome.err msg →
      fetchFeed s (oracle s) = ⟨false, s, some msg, []⟩) ∧
    getAllPosts (fetchMultipleFeeds subs oracle) =
      subs.flatMap (fun s =>
        match oracle s with
        | FetchOutcome.ok ps => ps
        | FetchOutcome.err _ => []) := by
  constructor
  · intro s msg h
    rw [h]
    rfl
  · induction subs with
    | nil => rfl
    | cons s rest ih =>
      rw [List.flatMap_cons, fetchMultipleFeeds, List.map_cons, getAllPosts_cons]
      rw [fetchMultipleFeeds] at ih
      rw [ih]
      cases ho : oracle s <;> simp [fetchFeed, ho]

/-- Witness for C8: with two configured sources of which one fails, the
failing source yields a non-throwing failure result and the combined post
list is exactly the successful source's posts. -/
theorem source_failure_isolated_witness :
    fetchFeed "guitars" (demoFeedOracle "guitars") =
      ⟨false, "guitars", some "fetch failed", []⟩ ∧
    getAllPosts (fetchMultipleFeeds ["music", "guitars"] demoFeedOracle) = [demoPost] :=
  ⟨(source_failure_isolated ["music", "guitars"] demoFeedOracle).1
      "guitars" "fetch failed" rfl,
   by rw [(source_failure_isolated ["music", "guitars"] demoFeedOracle).2]; rfl⟩

theorem requireEnv_ok {env : Env} {v r : String}
    (h : requireEnv env v = Except.ok r) :
    (env.vars v == "") = false ∧ r = env.vars v := by
  unfold requireEnv at h
  split at h
  · exact absurd h (by simp)
  · rename_i hcond
    refine ⟨by simpa using hcond, ?_⟩
    injection h with h'
    exact h'.symm

theorem loadConfig_ok_implies {env : Env} {cfg : Config}
    (h : loadConfig env = Except.ok cfg) :
    (env.vars "MAILERSEND_API_TOKEN" == "") = false ∧
    (env.vars "FROM_EMAIL" == "") = false ∧
    (env.vars "TO_EMAIL" == "") = false ∧
    (env.vars "SUBREDDITS" == "") = false ∧
    isValidEmail (env.vars "FROM_EMAIL") = true ∧
    isValidEmail (env.vars "TO_EMAIL") = true ∧
    (parseSubreddits (env.vars "SUBREDDITS")).length ≠ 0 ∧
    ltNaN (parseIntJS (getEnv env "CHECK_INTERVAL_MINUTES" "5")) 1 = false ∧
    ltNaN (parseIntJS (getEnv env "POST_AGE_MINUTES" "5")) 1 = false := by
  unfold loadConfig at h
  split at h
  · exact absurd h (by simp)
  rename_i apiToken hTok
  split at h
  · exact absurd h (by simp)
  rename_i fromEmail hFrom
  split at h
  · exact absurd h (by simp)
  rename_i toEmail hTo
  split at h
  · exact absurd h (by simp)
  rename_i subsRaw hSubs
  obtain ⟨hTok1, hTok2⟩ := requireEnv_ok hTok
  obtain ⟨hFrom1, hFrom2⟩ := requireEnv_ok hFrom
  obtain ⟨hTo1, hTo2⟩ := requireEnv_ok hTo
  obtain ⟨hSubs1, hSubs2⟩ := requireEnv_ok hSubs
  subst hFrom2 hTo2 hSubs2
  split at h
  · exact absurd h (by simp)
  rename_i hv1
  split at h
  · exact absurd h (by simp)
  rename_i hv2
  split at h
  · exact absurd h (by simp)
  rename_i hv3
  split at h
  · exact absurd h (by simp)
  rename_i hv4
  split at h
  · exact absurd h (by simp)
  rename_i hv5
  refine ⟨hTok1, hFrom1, hTo1, hSubs1, ?_, ?_, ?_, ?_, ?_⟩
  · simpa using hv1
  · simpa using hv2
  · simpa using hv3
  · simpa using hv4
  · simpa using hv5

/-- C9: configuration loading aborts startup with an error whenever any
required variable is missing (or empty), a sender or recipient address
fails email-shape validation, the parsed source list is empty, the
polling period is below 1 minute, or the freshness window is below 1
minute — the orchestrator is never scheduled on such a configuration,
since the `config/env.js` module throw escapes before `index.js`
runs. -/
theorem config_invalid_aborts (env : Env)
    (h : env.vars "MAILERSEND_API_TOKEN" = "" ∨ env.vars "FROM_EMAIL" = "" ∨
      env.vars "TO_EMAIL" = "" ∨ env.vars "SUBREDDITS" = "" ∨
      isValidEmail (env.vars "FROM_EMAIL") = false ∨
      isValidEmail (env.vars "TO_EMAIL") = false ∨
      parseSubreddits (env.vars "SUBREDDITS") = [] ∨
      ltNaN (parseIntJS (getEnv env "CHECK_INTERVAL_MINUTES" "5")) 1 = true ∨
      ltNaN (parseIntJS (getEnv env "POST_AGE_MINUTES" "5")) 1 = true) :
    ∃ msg, loadConfig env = Except.error msg := by
  rcases hres : loadConfig env with e | cfg
  · exact ⟨e, rfl⟩
  · exfalso
    obtain ⟨c1, c2, c3, c4, c5, c6, c7, c8, c9⟩ := loadConfig_ok_implies hres
    rcases h with h|h|h|h|h|h|h|h|h
    · simp [h] at c1
    · simp [h] at c2
    · simp [h] at c3
    · simp [h] at c4
    · rw [h] at c5; exact absurd c5 (by simp)
    · rw [h] at c6; exact absurd c6 (by simp)
    · rw [h] at c7; exact c7 rfl
    · rw [h] at c8; exact absurd c8 (by simp)
    · rw [h] at c9; exact absurd c9 (by simp)

/-- Witness for C9: loading `badEnv` aborts with an error. -/
theorem config_invalid_aborts_witness :
    ∃ msg, loadConfig badEnv = Except.error msg :=
  config_invalid_aborts badEnv
    (Or.inr (Or.inr (Or.inr (Or.inr (Or.inr (Or.inl (by decide)))))))

theorem markAllSeen_mem_preserved {tr : PostTracker} {now : Int} {k : String}
    (posts : List Post) (h : (k, now) ∈ tr.seenPosts) :
    (k, now) ∈ (markAllSeen tr posts now).seenPosts := by
  induction posts generalizing tr with
  | nil => exact h
  | cons q rest ih =>
    show (k, now) ∈ (markAllSeen (markAsSeen tr (q.id.getD "") now) rest now).seenPosts
    exact ih (mem_mapSet_same_val h _)

theorem markAllSeen_mem {tr : PostTracker} {now : Int} {pid : String} {p : Post}
    (posts : List Post) (hp : p ∈ posts) (hid : p.id = some pid) :
    (pid, now) ∈ (markAllSeen tr posts now).seenPosts := by
  induction posts generalizing tr with
  | nil => cases hp
  | cons q rest ih =>
    rcases List.mem_cons.mp hp with rfl | hmem
    · refine markAllSeen_mem_preserved rest ?_
      show (pid, now) ∈ mapSet tr.seenPosts (p.id.getD "") now
      rw [hid]
      exact mem_mapSet_self _ _ _
    · exact ih hmem

/-- C1: in a cycle whose notification dispatch fails (`sendNotification`
reported `false`), `markAsSeen` runs for no item: the tracker leaving the
cycle is the incoming tracker with only `cleanup` applied, and every post
the incoming tracker reported as new (still fresh, still unseen) is
reported as new again by the outgoing tracker. -/
theorem dispatch_failure_batch_retried (tr : PostTracker) (env : CycleEnv)
    (hfail : (monitorFeeds tr env).emailSent = false) :
    (monitorFeeds tr env).tracker = (cleanup tr env.now).1 ∧
    ∀ post now2 w, (isNewPost tr now2 post w).1 = true →
      (isNewPost (monitorFeeds tr env).tracker now2 post w).1 = true := by
  have ht := monitorFeeds_tracker_of_not_sent tr env hfail
  refine ⟨ht, ?_⟩
  intro post now2 w h
  rw [ht]
  exact isNewPost_true_after_cleanup env.now h

/-- Witness for C1: with a failing transport, the cycle sends nothing,
marks nothing, and the fresh post is still new afterwards. -/
theorem dispatch_failure_batch_retried_witness :
    (monitorFeeds ⟨[]⟩ demoCycleEnvFail).emailSent = false ∧
    (monitorFeeds ⟨[]⟩ demoCycleEnvFail).tracker = (cleanup ⟨[]⟩ 60000).1 ∧
    (isNewPost (monitorFeeds ⟨[]⟩ demoCycleEnvFail).tracker 60000 demoPost 5).1 = true :=
  have hfail : (monitorFeeds ⟨[]⟩ demoCycleEnvFail).emailSent = false := by rfl
  ⟨hfail,
   (dispatch_failure_batch_retried ⟨[]⟩ demoCycleEnvFail hfail).1,
   (dispatch_failure_batch_retried ⟨[]⟩ demoCycleEnvFail hfail).2 demoPost 60000 5
     (by rfl)⟩

theorem sendNotification_all_skipped {ps : List Post} (ok : Bool)
    (h : ∀ p ∈ ps, p.shouldReply = some false) :
    sendNotification (some ps) ok = false := by
  unfold sendNotification
  cases hps : ps with
  | nil => rfl
  | cons q rest =>
    have hfilter : postsToEmail (q :: rest) = [] := by
      rw [postsToEmail, List.filter_eq_nil_iff]
      intro a ha
      rw [h a (hps ▸ ha)]
      simp
    simp [hfilter]

theorem cycleAnalyzed_all_skipped (tr : PostTracker) (env : CycleEnv)
    (henabled : env.aiEnabled = true)
    (hskip : ∀ post, (generateReply (env.aiOracle post)).shouldReply = false) :
    ∀ p ∈ cycleAnalyzed tr env, p.shouldReply = some false := by
  intro p hp
  rw [cycleAnalyzed, henabled, if_pos rfl, analyzeAllPosts] at hp
  split at hp
  · rename_i hcond
    simp only [henabled, Bool.not_true, Bool.false_or, beq_iff_eq,
      List.length_eq_zero] at hcond
    rw [hcond] at hp
    cases hp
  · rw [List.mem_map] at hp
    obtain ⟨q, _, rfl⟩ := hp
    show some (generateReply (env.aiOracle q)).shouldReply = some false
    rw [hskip q]

/-- C10: `sendNotification` attempts no send and returns false for a null
batch, an empty batch, and a batch in which every post was suppressed
(`shouldReply = false`) — the result does not even depend on the
transport — and consequently a cycle whose AI suppresses every item marks
nothing seen, so its still-fresh posts are re-offered as new to every
subsequent cycle. -/
theorem all_suppressed_batch_resurfaces (tr : PostTracker) (env : CycleEnv)
    (ok : Bool) (posts : List Post)
    (hsup : ∀ p ∈ posts, p.shouldReply = some false)
    (henabled : env.aiEnabled = true)
    (hskip : ∀ post, (generateReply (env.aiOracle post)).shouldReply = false) :
    sendNotification none ok = false ∧
    sendNotification (some []) ok = false ∧
    sendNotification (some posts) ok = false ∧
    (monitorFeeds tr env).emailSent = false ∧
    (monitorFeeds tr env).tracker = (cleanup tr env.now).1 ∧
    ∀ post now2 w, (isNewPost tr now2 post w).1 = true →
      (isNewPost (monitorFeeds tr env).tracker now2 post w).1 = true := by
  have hsend : (monitorFeeds tr env).emailSent = false := by
    unfold monitorFeeds
    by_cases hc : 0 < (cycleNewPosts tr env).length
    · simp only [hc, if_true]
      exact sendNotification_all_skipped env.transportOk
        (cycleAnalyzed_all_skipped tr env henabled hskip)
    · simp [hc]
  have ht := monitorFeeds_tracker_of_not_sent tr env hsend
  refine ⟨rfl, rfl, sendNotification_all_skipped ok hsup, hsend, ht, ?_⟩
  intro post now2 w h
  rw [ht]
  exact isNewPost_true_after_cleanup env.now h

/-- Witness for C10: a cycle in which the AI suppresses the only fresh
post sends no email even though the transport works, marks nothing seen,
and the post is still new afterwards. -/
theorem all_suppressed_batch_resurfaces_witness :
    sendNotification (some [skipPost]) true = false ∧
    (monitorFeeds ⟨[]⟩ demoCycleEnvSkip).emailSent = false ∧
    (monitorFeeds ⟨[]⟩ demoCycleEnvSkip).tracker = (cleanup ⟨[]⟩ 60000).1 ∧
    (isNewPost (monitorFeeds ⟨[]⟩ demoCycleEnvSkip).tracker 60000 demoPost 5).1 = true :=
  have h := all_suppressed_batch_resurfaces ⟨[]⟩ demoCycleEnvSkip true [skipPost]
    (by decide) rfl (fun _ => rfl)
  ⟨h.2.2.1, h.2.2.2.1, h.2.2.2.2.1,
   h.2.2.2.2.2 demoPost 60000 5 (by rfl)⟩

/-- Counterexample to C2: a batch holding one post the AI kept and one it
suppressed is dispatched with the suppressed post removed from the
payload — `sendNotification` filters it out before building the email, so
it is not included as an explicitly-skipped entry. -/
theorem suppressed_post_dropped_from_payload :
    postsToEmail [keepPost, skipPost] = [keepPost] ∧
    skipPost ∉ postsToEmail [keepPost, skipPost] := by
  refine ⟨rfl, ?_⟩
  decide

/-- C2 (amended): the dispatched payload is the batch with every
suppressed (`shouldReply === false`) item filtered out — suppressed items
are silently dropped from the notification, not rendered as skipped
entries — but when the remaining batch is sent successfully, every item
of the cycle's batch, suppressed ones included, is marked seen under its
original identifier. -/
theorem suppression_filtered_but_batch_marked_seen (tr : PostTracker) (env : CycleEnv) :
    (∀ posts : List Post, ∀ p : Post,
      p ∈ postsToEmail posts ↔ p ∈ posts ∧ p.shouldReply ≠ some false) ∧
    ((monitorFeeds tr env).emailSent = true →
      ∀ p ∈ (monitorFeeds tr env).newPosts, ∀ pid, p.id = some pid →
        mapHas (monitorFeeds tr env).tracker.seenPosts pid = true) := by
  constructor
  · intro posts p
    simp [postsToEmail, List.mem_filter]
  · intro hsent p hp pid hid
    unfold monitorFeeds at hsent hp ⊢
    by_cases hc : 0 < (cycleNewPosts tr env).length
    · simp only [hc, if_true] at hsent hp ⊢
      rw [hsent, if_pos rfl]
      exact mapHas_cleanupList_true (markAllSeen_mem _ hp hid)
        (by rw [MAX_AGE_MS]; omega)
    · simp only [hc, if_false] at hsent
      exact absurd hsent (by simp)

/-- Witness for C2 (amended): in a successfully sent two-post cycle where
the AI suppressed `p2`, the payload filter drops the suppressed analyzed
post, yet `p2` is marked seen. -/
theorem suppression_filtered_but_batch_marked_seen_witness :
    (skipPost ∈ postsToEmail [keepPost, skipPost] ↔
      skipPost ∈ [keepPost, skipPost] ∧ skipPost.shouldReply ≠ some false) ∧
    mapHas (monitorFeeds ⟨[]⟩ demoCycleEnvMixed).tracker.seenPosts "p2" = true :=
  ⟨(suppression_filtered_but_batch_marked_seen ⟨[]⟩ demoCycleEnvMixed).1
      [keepPost, skipPost] skipPost,
   (suppression_filtered_but_batch_marked_seen ⟨[]⟩ demoCycleEnvMixed).2
      (by rfl) demoPost2 (by decide) "p2" rfl⟩

/-- Counterexample to C3: the item whose annotation call failed (an API
error) ends up with `shouldReply = false`, and the payload filter then
excludes it from the notification instead of delivering it with its
baseline content. -/
theorem annotation_failure_item_excluded :
    ((analyzeAllPosts true [failAIPost, okAIPost] demoAIOracle).map
        (fun p => (p.id, p.shouldReply))) =
      [(some "f1", some false), (some "g1", some true)] ∧
    ((postsToEmail (analyzeAllPosts true [failAIPost, okAIPost] demoAIOracle)).map
        (fun p => p.id)) = [some "g1"] := by
  exact ⟨rfl, rfl⟩

/-- C3 (amended): an annotation failure (API error, empty response, or
unparseable response) never aborts the cycle — `generateReply` converts
the failure into a skip result instead of throwing, and every item of the
batch is still analyzed — but the failed item is consequently excluded
from the email payload by the notifier's skip filter rather than
surfaced with baseline content. -/
theorem annotation_failure_degrades_to_skip (posts : List Post)
    (ai : Post → AIOutcome) (p : Post) (hp : p ∈ posts)
    (hfail : aiFailed (ai p) = true) :
    (generateReply (ai p)).shouldReply = false ∧
    (analyzePost ai p).shouldReply = some false ∧
    analyzeAllPosts true posts ai = posts.map (analyzePost ai) ∧
    analyzePost ai p ∈ analyzeAllPosts true posts ai ∧
    analyzePost ai p ∉ postsToEmail (analyzeAllPosts true posts ai) := by
  have h1 : (generateReply (ai p)).shouldReply = false := by
    cases hai : ai p <;> rw [hai] at hfail <;> simp [aiFailed] at hfail <;>
      simp [generateReply]
  have h2 : (analyzePost ai p).shouldReply = some false := by
    show some (generateReply (ai p)).shouldReply = some false
    rw [h1]
  have h3 : analyzeAllPosts true posts ai = posts.map (analyzePost ai) := by
    rw [analyzeAllPosts]
    split
    · rename_i hcond
      simp only [Bool.not_true, Bool.false_or, beq_iff_eq,
        List.length_eq_zero] at hcond
      rw [hcond] at hp
      cases hp
    · rfl
  refine ⟨h1, h2, h3, ?_, ?_⟩
  · rw [h3, List.mem_map]
    exact ⟨p, hp, rfl⟩
  · intro hmem
    rw [postsToEmail, List.mem_filter] at hmem
    rw [h2] at hmem
    exact absurd hmem.2 (by simp)

/-- Witness for C3 (amended): with a two-post batch whose first item's
annotation call throws, the failed item is analyzed into a skip and the
payload excludes it. -/
theorem annotation_failure_degrades_to_skip_witness :
    (generateReply (demoAIOracle failAIPost)).shouldReply = false ∧
    (analyzePost demoAIOracle failAIPost).shouldReply = some false ∧
    analyzePost demoAIOracle failAIPost ∉
      postsToEmail (analyzeAllPosts true [failAIPost, okAIPost] demoAIOracle) :=
  have h := annotation_failure_degrades_to_skip [failAIPost, okAIPost] demoAIOracle
    failAIPost (by decide) rfl
  ⟨h.1, h.2.1, h.2.2.2.2⟩

end RedditRssMonitor
